import Mathlib

/-!
Verification of the LiTime BMS2Cloud firmware orchestration core
(`src/main.cpp`), shallowly embedded in Lean 4.

Modelling conventions:
* C++ `float` fields are modelled as `ℚ` (the firmware only copies and
  compares these values; it performs no rounding arithmetic on them).
* `uint8_t` / `unsigned long` / `uint32_t` are modelled as `ℕ`,
  `int16_t` and HTTP status codes as `ℤ`.
* Arduino `String` is modelled as `String`.
* Hardware and library collaborators (BLE client, WiFi radio, HTTP
  transport, NVS store) are modelled as explicit oracle inputs: the
  fetched reading, the link-status history, the HTTP POST result and
  the key-value store are parameters of the embedded functions.
-/

namespace BMS2Cloud

/-- The battery telemetry snapshot, mirroring `struct BMSData` in
`src/main.cpp` (lines 1602-1621). -/
structure BMSData where
  totalVoltage : ℚ := 0
  cellVoltageSum : ℚ := 0
  current : ℚ := 0
  mosfetTemp : ℤ := 0
  cellTemp : ℤ := 0
  soc : ℕ := 0
  soh : String := ""
  remainingAh : ℚ := 0
  fullCapacityAh : ℚ := 0
  protectionState : String := ""
  heatState : String := ""
  balanceMemory : String := ""
  failureState : String := ""
  balancingState : String := ""
  batteryState : String := ""
  dischargesCount : ℕ := 0
  dischargesAhCount : ℚ := 0
  cellVoltages : List ℚ := []
deriving Repr, DecidableEq

/-- Validity gate, mirroring `isBmsDataValid()` (lines 1700-1726).
`soc` is a `uint8_t` in the source, hence only the upper bound is
checked there; the embedded `ℕ` likewise carries the lower bound
implicitly. -/
def isBmsDataValid (d : BMSData) : Bool :=
  if d.totalVoltage < 10 ∨ d.totalVoltage > 60 then false
  else if d.soc > 100 then false
  else if d.cellVoltages.length = 0 then false
  else if d.cellVoltages.any (fun v => decide (v < 2) || decide (v > 4)) then false
  else true

/-- C1: the validity gate returns valid iff all four plausibility rules
hold: pack voltage in [10, 60] V, state of charge in [0, 100] %, a
non-empty cell-voltage sequence, and every cell voltage in [2, 4] V. -/
theorem isBmsDataValid_iff_rules (d : BMSData) :
    isBmsDataValid d = true ↔
      ((10 ≤ d.totalVoltage ∧ d.totalVoltage ≤ 60) ∧
       (0 ≤ d.soc ∧ d.soc ≤ 100) ∧
       d.cellVoltages ≠ [] ∧
       (∀ v ∈ d.cellVoltages, 2 ≤ v ∧ v ≤ 4)) := by
  unfold isBmsDataValid
  constructor
  · intro h
    by_cases h1 : d.totalVoltage < 10 ∨ d.totalVoltage > 60
    · simp [h1] at h
    · by_cases h2 : d.soc > 100
      · simp [h1, h2] at h
      · by_cases h3 : d.cellVoltages.length = 0
        · simp [h1, h2, h3] at h
        · by_cases h4 : d.cellVoltages.any (fun v => decide (v < 2) || decide (v > 4))
          · simp only [h1, h2, h3, h4] at h
            simp at h
          · push_neg at h1 h2
            refine ⟨⟨h1.1, h1.2⟩, ⟨Nat.zero_le _, h2⟩, ?_, ?_⟩
            · intro hnil
              exact h3 (by simp [hnil])
            · intro v hv
              have h5 : d.cellVoltages.any (fun v => decide (v < 2) || decide (v > 4)) = false :=
                Bool.eq_false_iff.mpr h4
              rw [List.any_eq_false] at h5
              have h6 := h5 v hv
              simp only [Bool.or_eq_true, decide_eq_true_eq, not_or] at h6
              exact ⟨le_of_not_lt h6.1, le_of_not_lt h6.2⟩
  · rintro ⟨⟨hl, hu⟩, ⟨-, hsoc⟩, hne, hcells⟩
    have h1 : ¬(d.totalVoltage < 10 ∨ d.totalVoltage > 60) := by
      push_neg
      exact ⟨hl, hu⟩
    have h2 : ¬(d.soc > 100) := by omega
    have h3 : ¬(d.cellVoltages.length = 0) := by
      simp [List.length_eq_zero]
      exact hne
    have h4 : ¬(d.cellVoltages.any (fun v => decide (v < 2) || decide (v > 4)) = true) := by
      simp only [List.any_eq_true, not_exists, not_and]
      intro v hv
      have := hcells v hv
      simp only [Bool.or_eq_true, decide_eq_true_eq]
      push_neg
      exact ⟨by linarith [this.1], by linarith [this.2]⟩
    simp [h1, h2, h3, h4]

/-- The poll-relevant mutable state of the peripheral data path: the
globals `bmsData` and `bmsDataValid`. -/
structure PollState where
  bmsData : BMSData
  bmsDataValid : Bool
deriving Repr, DecidableEq

/-- Direction of a validity-flag transition logged by `updateBMSData()`. -/
inductive ValidityTransition where
  | toInvalid
  | toValid
deriving Repr, DecidableEq

/-- The new flag value announced by a transition message. -/
def ValidityTransition.flag : ValidityTransition → Bool
  | .toInvalid => false
  | .toValid => true

/-- Observable outcome of one `updateBMSData()` tick: the updated
state, the transition message emitted on the serial log (if any), and
whether `printBMSDataSerial()` was invoked. -/
structure PollResult where
  st : PollState
  msg : Option ValidityTransition
  printed : Bool
deriving Repr, DecidableEq

/-- One tick of `updateBMSData()` (lines 1795-1843). The freshly
fetched reading (the values the `bmsClient` getters return after
`update()`) is an oracle input `fetched`. -/
def updateBMSData (bmsConnected serialOutputEnabled : Bool) (fetched : BMSData)
    (st : PollState) : PollResult :=
  if !bmsConnected then ⟨st, none, false⟩
  else
    let wasValid := st.bmsDataValid
    let valid := isBmsDataValid fetched
    if !valid then
      ⟨⟨fetched, valid⟩, if wasValid then some .toInvalid else none, false⟩
    else
      ⟨⟨fetched, valid⟩, if !wasValid then some .toValid else none, serialOutputEnabled⟩

/-- A sequence of connected polls: runs `updateBMSData` once per
fetched reading and collects the emitted transition messages in
order. -/
def runPolls (serialOutputEnabled : Bool) : List BMSData → PollState → PollState × List ValidityTransition
  | [], st => (st, [])
  | d :: ds, st =>
    let r := updateBMSData true serialOutputEnabled d st
    let rest := runPolls serialOutputEnabled ds r.st
    (rest.1, r.msg.toList ++ rest.2)

/-- The subsequence of value changes of a boolean trace, starting from
a previous value: one entry (the new value) per flip. -/
def boolFlips : Bool → List Bool → List Bool
  | _, [] => []
  | prev, b :: bs => if b = prev then boolFlips b bs else b :: boolFlips b bs

/-- Single-tick characterization: the state after a connected poll
carries the fetched snapshot and its recomputed validity, and a
message is emitted exactly when the recomputed flag differs. -/
theorem updateBMSData_step (se : Bool) (d : BMSData) (st : PollState) :
    (updateBMSData true se d st).st = ⟨d, isBmsDataValid d⟩ ∧
    (updateBMSData true se d st).msg =
      (if isBmsDataValid d = st.bmsDataValid then none
       else some (if isBmsDataValid d then .toValid else .toInvalid)) := by
  unfold updateBMSData
  cases hv : isBmsDataValid d <;> cases hw : st.bmsDataValid <;> simp [hv, hw]

/-- C3: across any sequence of connected polls, the transition
messages emitted by `updateBMSData` are exactly the flips of the
recomputed validity flag: a message appears only on a tick whose
recomputed flag differs from the previous value, so a valid-to-invalid
transition is reported exactly once across consecutive invalid polls,
and likewise invalid-to-valid. -/
theorem runPolls_reports_each_transition_once (se : Bool) (l : List BMSData) (st : PollState) :
    ((runPolls se l st).2).map ValidityTransition.flag =
      boolFlips st.bmsDataValid (l.map isBmsDataValid) := by
  induction l generalizing st with
  | nil => simp [runPolls, boolFlips]
  | cons d ds ih =>
    have hstep := updateBMSData_step se d st
    simp only [runPolls, List.map_append, List.map_cons, boolFlips]
    rw [hstep.1, hstep.2]
    by_cases h : isBmsDataValid d = st.bmsDataValid
    · simp [h, ih]
    · cases hv : isBmsDataValid d
      · have hw : st.bmsDataValid = true := by
          cases hwv : st.bmsDataValid <;> simp [hv, hwv] at h ⊢
        simp [hv, hw, ih, ValidityTransition.flag]
      · have hw : st.bmsDataValid = false := by
          cases hwv : st.bmsDataValid <;> simp [hv, hwv] at h ⊢
        simp [hv, hw, ih, ValidityTransition.flag]

/-- The JSON view produced by `handleApiData()` (lines 2823-2858). -/
structure ApiDataResponse where
  available : Bool
  totalVoltage : ℚ
  cellVoltageSum : ℚ
  current : ℚ
  mosfetTemp : ℤ
  cellTemp : ℤ
  soc : ℕ
  soh : String
  remainingAh : ℚ
  fullCapacityAh : ℚ
  protectionState : String
  heatState : String
  failureState : String
  balancingState : String
  batteryState : String
  dischargesCount : ℕ
  dischargesAhCount : ℚ
  connected : Bool
  cellVoltages : List ℚ
deriving Repr, DecidableEq

/-- `handleApiData()` (lines 2823-2858): serializes the stored
snapshot unconditionally; only the `available` flag consults validity. -/
def handleApiData (bluetoothEnabled bmsConnected bmsDataValid : Bool)
    (d : BMSData) : ApiDataResponse :=
  { available := bluetoothEnabled && bmsConnected && bmsDataValid
    totalVoltage := d.totalVoltage
    cellVoltageSum := d.cellVoltageSum
    current := d.current
    mosfetTemp := d.mosfetTemp
    cellTemp := d.cellTemp
    soc := d.soc
    soh := d.soh
    remainingAh := d.remainingAh
    fullCapacityAh := d.fullCapacityAh
    protectionState := d.protectionState
    heatState := d.heatState
    failureState := d.failureState
    balancingState := d.balancingState
    batteryState := d.batteryState
    dischargesCount := d.dischargesCount
    dischargesAhCount := d.dischargesAhCount
    connected := bmsConnected
    cellVoltages := d.cellVoltages }

/-- The delivery record kept for display in the web UI: the globals
`lastHaTime`, `lastHaHttpCode`, `lastHaResponse`. -/
structure HaRecord where
  lastHaTime : String
  lastHaHttpCode : ℤ
  lastHaResponse : String
deriving Repr, DecidableEq

/-- Inputs read by one `sendToHomeAssistant()` call: the gating
globals, plus oracles for the wall-clock string and the HTTP
transport outcome (`http.POST` result and `http.getString()`). -/
structure SendEnv where
  haEnabled : Bool
  haWebhookUrl : String
  apMode : Bool
  wifiConnected : Bool
  bmsDataValid : Bool
  nowString : String
  postResult : ℤ
  postResponse : String
deriving Repr, DecidableEq

/-- Observable outcome of one `sendToHomeAssistant()` call: the
returned boolean, the number of HTTP POSTs issued, and the delivery
record afterwards. -/
structure SendResult where
  success : Bool
  networkCalls : ℕ
  record : HaRecord
deriving Repr, DecidableEq

/-- Response truncation for display (lines 2432-2436):
`substring(0, 200) + "..."` when longer than 200 characters. -/
def truncateResponse (s : String) : String :=
  if s.length > 200 then String.mk (s.data.take 200) ++ "..." else s

/-- The fixed reason taxonomy for non-positive `http.POST` results
(lines 2439-2447). -/
def negCodeReason (code : ℤ) : String :=
  if code = -1 then "Verbindung fehlgeschlagen"
  else if code = -2 then "Senden fehlgeschlagen"
  else if code = -3 then "Kein Stream"
  else if code = -4 then "Keine HTTP-Verbindung"
  else if code = -5 then "Verbindung verloren"
  else if code = -11 then "Timeout"
  else "Fehler " ++ toString code

/-- `sendToHomeAssistant()` (lines 2350-2460). The first guard
(`!haEnabled || haWebhookUrl.length() == 0 || apMode`) returns without
touching the record; the WiFi and validity guards record a reason; on
the full path exactly one POST is issued and the record is rewritten
from its result. -/
def sendToHomeAssistant (env : SendEnv) (rec : HaRecord) : SendResult :=
  if !env.haEnabled || env.haWebhookUrl.length = 0 || env.apMode then
    ⟨false, 0, rec⟩
  else if !env.wifiConnected then
    ⟨false, 0, ⟨env.nowString, -1, "Kein WLAN"⟩⟩
  else if !env.bmsDataValid then
    ⟨false, 0, ⟨env.nowString, -1, "BMS-Daten nicht plausibel"⟩⟩
  else
    let httpCode := env.postResult
    let resp :=
      if httpCode > 0 then truncateResponse env.postResponse
      else negCodeReason httpCode
    ⟨httpCode = 200, 1, ⟨env.nowString, httpCode, resp⟩⟩

/-- Helper: the truncated response never exceeds 203 characters
(200 kept characters plus the three-dot suffix). -/
theorem truncateResponse_length_le (s : String) : (truncateResponse s).length ≤ 203 := by
  unfold truncateResponse
  by_cases h : s.length > 200
  · have h1 : (String.mk (s.data.take 200)).length = (s.data.take 200).length := rfl
    rw [if_pos h, String.length_append, h1, List.length_take]
    have h2 : ("..." : String).length = 3 := rfl
    rw [h2]
    have := Nat.min_le_left 200 s.data.length
    omega
  · rw [if_neg h]
    omega

/-- C2 counterexample: with the delivery feature disabled (a failing
precondition) and every other gate satisfied, `sendToHomeAssistant`
returns failure with zero network calls but leaves the delivery record
untouched — no reason is recorded, contrary to the claim. -/
theorem sendToHomeAssistant_disabled_records_no_reason :
    (sendToHomeAssistant ⟨false, "http://ha.local/hook", false, true, true, "now", 200, "ok"⟩
        ⟨"", 0, ""⟩).record = ⟨"", 0, ""⟩ ∧
    (sendToHomeAssistant ⟨false, "http://ha.local/hook", false, true, true, "now", 200, "ok"⟩
        ⟨"", 0, ""⟩).networkCalls = 0 ∧
    (sendToHomeAssistant ⟨false, "http://ha.local/hook", false, true, true, "now", 200, "ok"⟩
        ⟨"", 0, ""⟩).success = false :=
  ⟨rfl, rfl, rfl⟩

/-- C2 (amended): whenever some precondition fails, the dispatcher
performs no network call and returns failure; the WiFi and validity
preconditions record a reason (WiFi checked first), while a failure of
the first three (feature disabled, endpoint empty, AP mode) leaves the
record untouched. -/
theorem sendToHomeAssistant_precondition_shortcircuit (env : SendEnv) (rec : HaRecord)
    (h : ¬(env.haEnabled = true ∧ env.haWebhookUrl.length ≠ 0 ∧ env.apMode = false ∧
           env.wifiConnected = true ∧ env.bmsDataValid = true)) :
    (sendToHomeAssistant env rec).networkCalls = 0 ∧
    (sendToHomeAssistant env rec).success = false ∧
    (sendToHomeAssistant env rec).record =
      (if env.haEnabled = false ∨ env.haWebhookUrl.length = 0 ∨ env.apMode = true then rec
       else if env.wifiConnected = false then ⟨env.nowString, -1, "Kein WLAN"⟩
       else ⟨env.nowString, -1, "BMS-Daten nicht plausibel"⟩) := by
  obtain ⟨he, url, ap, wifi, valid, now, pr, resp⟩ := env
  cases he <;> cases ap <;> cases wifi <;> cases valid <;>
    by_cases hurl : url.length = 0 <;>
    simp_all [sendToHomeAssistant]

/-- Witness for the amended C2 theorem at a concrete input: WiFi not
connected, all earlier preconditions satisfied. -/
theorem sendToHomeAssistant_precondition_shortcircuit_witness :
    ¬((true : Bool) = true ∧ ("http://ha.local/hook" : String).length ≠ 0 ∧
        (false : Bool) = false ∧ (false : Bool) = true ∧ (true : Bool) = true) ∧
    ((sendToHomeAssistant ⟨true, "http://ha.local/hook", false, false, true, "now", 200, "ok"⟩
        ⟨"", 0, ""⟩).networkCalls = 0 ∧
     (sendToHomeAssistant ⟨true, "http://ha.local/hook", false, false, true, "now", 200, "ok"⟩
        ⟨"", 0, ""⟩).success = false ∧
     (sendToHomeAssistant ⟨true, "http://ha.local/hook", false, false, true, "now", 200, "ok"⟩
        ⟨"", 0, ""⟩).record =
       (if (true : Bool) = false ∨ ("http://ha.local/hook" : String).length = 0 ∨
            (false : Bool) = true then (⟨"", 0, ""⟩ : HaRecord)
        else if (false : Bool) = false then ⟨"now", -1, "Kein WLAN"⟩
        else ⟨"now", -1, "BMS-Daten nicht plausibel"⟩)) :=
  ⟨by decide,
   sendToHomeAssistant_precondition_shortcircuit
     ⟨true, "http://ha.local/hook", false, false, true, "now", 200, "ok"⟩
     ⟨"", 0, ""⟩ (by decide)⟩

/-- C7 counterexample: HTTP 204 is a 2xx result, yet the dispatch
returns failure — the code treats only the exact status 200 as
success. -/
theorem sendToHomeAssistant_204_fails :
    (200 : ℤ) ≤ 204 ∧ (204 : ℤ) < 300 ∧
    (sendToHomeAssistant ⟨true, "http://ha.local/hook", false, true, true, "now", 204, "ok"⟩
        ⟨"", 0, ""⟩).success = false ∧
    (sendToHomeAssistant ⟨true, "http://ha.local/hook", false, true, true, "now", 204, "ok"⟩
        ⟨"", 0, ""⟩).networkCalls = 1 := by
  refine ⟨by norm_num, by norm_num, ?_, rfl⟩
  rfl

/-- C7 (amended): on a completed dispatch (all preconditions
satisfied) exactly one POST is issued; the result is success exactly
for HTTP status 200 and failure for every other status or transport
result; the status and response are recorded, with non-positive
transport codes mapped through the fixed reason taxonomy and positive
statuses recording the response truncated to at most 203 characters. -/
theorem sendToHomeAssistant_result_recording (env : SendEnv) (rec : HaRecord)
    (h : env.haEnabled = true ∧ env.haWebhookUrl.length ≠ 0 ∧ env.apMode = false ∧
         env.wifiConnected = true ∧ env.bmsDataValid = true) :
    (sendToHomeAssistant env rec).networkCalls = 1 ∧
    ((sendToHomeAssistant env rec).success = true ↔ env.postResult = 200) ∧
    (sendToHomeAssistant env rec).record.lastHaTime = env.nowString ∧
    (sendToHomeAssistant env rec).record.lastHaHttpCode = env.postResult ∧
    (sendToHomeAssistant env rec).record.lastHaResponse =
      (if env.postResult > 0 then truncateResponse env.postResponse
       else negCodeReason env.postResult) ∧
    (∀ s, (truncateResponse s).length ≤ 203) ∧
    negCodeReason (-1) = "Verbindung fehlgeschlagen" ∧
    negCodeReason (-2) = "Senden fehlgeschlagen" ∧
    negCodeReason (-3) = "Kein Stream" ∧
    negCodeReason (-4) = "Keine HTTP-Verbindung" ∧
    negCodeReason (-5) = "Verbindung verloren" ∧
    negCodeReason (-11) = "Timeout" ∧
    negCodeReason (-7) = "Fehler -7" := by
  obtain ⟨h1, h2, h3, h4, h5⟩ := h
  have hsend : sendToHomeAssistant env rec =
      ⟨decide (env.postResult = 200), 1,
       ⟨env.nowString, env.postResult,
        if env.postResult > 0 then truncateResponse env.postResponse
        else negCodeReason env.postResult⟩⟩ := by
    unfold sendToHomeAssistant
    rw [if_neg, if_neg, if_neg]
    · simp [h5]
    · simp [h4]
    · simp [h1, h3]
      omega
  rw [hsend]
  refine ⟨rfl, by simp, rfl, rfl, rfl, truncateResponse_length_le, ?_⟩
  refine ⟨rfl, rfl, rfl, rfl, rfl, rfl, rfl⟩

/-- Witness for the amended C7 theorem at a concrete input: a
transport timeout (code -11). -/
theorem sendToHomeAssistant_result_recording_witness :
    ((true : Bool) = true ∧ ("http://ha.local/hook" : String).length ≠ 0 ∧
        (false : Bool) = false ∧ (true : Bool) = true ∧ (true : Bool) = true) ∧
    ((sendToHomeAssistant ⟨true, "http://ha.local/hook", false, true, true, "now", -11, ""⟩
        ⟨"", 0, ""⟩).networkCalls = 1 ∧
     ((sendToHomeAssistant ⟨true, "http://ha.local/hook", false, true, true, "now", -11, ""⟩
        ⟨"", 0, ""⟩).success = true ↔ (-11 : ℤ) = 200) ∧
     (sendToHomeAssistant ⟨true, "http://ha.local/hook", false, true, true, "now", -11, ""⟩
        ⟨"", 0, ""⟩).record.lastHaTime = "now" ∧
     (sendToHomeAssistant ⟨true, "http://ha.local/hook", false, true, true, "now", -11, ""⟩
        ⟨"", 0, ""⟩).record.lastHaHttpCode = -11 ∧
     (sendToHomeAssistant ⟨true, "http://ha.local/hook", false, true, true, "now", -11, ""⟩
        ⟨"", 0, ""⟩).record.lastHaResponse =
       (if (-11 : ℤ) > 0 then truncateResponse "" else negCodeReason (-11)) ∧
     (∀ s, (truncateResponse s).length ≤ 203) ∧
     negCodeReason (-1) = "Verbindung fehlgeschlagen" ∧
     negCodeReason (-2) = "Senden fehlgeschlagen" ∧
     negCodeReason (-3) = "Kein Stream" ∧
     negCodeReason (-4) = "Keine HTTP-Verbindung" ∧
     negCodeReason (-5) = "Verbindung verloren" ∧
     negCodeReason (-11) = "Timeout" ∧
     negCodeReason (-7) = "Fehler -7") :=
  ⟨by decide,
   sendToHomeAssistant_result_recording
     ⟨true, "http://ha.local/hook", false, true, true, "now", -11, ""⟩
     ⟨"", 0, ""⟩ (by decide)⟩

/-- C10: a connected poll overwrites the whole snapshot with the
fetched values even when they turn out implausible; invalidity
suppresses only the serial printout and the delivery (zero network
calls); `handleApiData` serializes the stored snapshot values
regardless of validity, distinguished only by its `available` flag. -/
theorem updateBMSData_overwrites_invalidity_gates_output_only :
    (∀ (se : Bool) (fetched : BMSData) (st : PollState),
        (updateBMSData true se fetched st).st.bmsData = fetched ∧
        (updateBMSData true se fetched st).st.bmsDataValid = isBmsDataValid fetched ∧
        (updateBMSData true se fetched st).printed = (isBmsDataValid fetched && se)) ∧
    (∀ (env : SendEnv) (rec : HaRecord),
        (sendToHomeAssistant { env with bmsDataValid := false } rec).networkCalls = 0 ∧
        (sendToHomeAssistant { env with bmsDataValid := false } rec).success = false) ∧
    (∀ (bt c v : Bool) (d : BMSData),
        handleApiData bt c v d = { handleApiData bt c true d with available := bt && c && v }) := by
  refine ⟨?_, ?_, ?_⟩
  · intro se fetched st
    unfold updateBMSData
    cases hv : isBmsDataValid fetched <;> simp [hv]
  · intro env rec
    unfold sendToHomeAssistant
    rcases h1 : (!env.haEnabled || decide (env.haWebhookUrl.length = 0) || env.apMode) with _ | _
    · simp only [h1, Bool.false_eq_true, if_false]
      split <;> simp
    · simp [h1]
  · intro bt c v d
    rfl

/-- The peripheral-connectivity globals: `bluetoothEnabled`,
`bmsConnected`, `bmsConnectPending`. The tagged-variant view is
Disconnected (both flags false), ConnectPending (pending, not
connected), Connected. -/
structure PeriState where
  bluetoothEnabled : Bool
  bmsConnected : Bool
  bmsConnectPending : Bool
deriving Repr, DecidableEq

/-- `handleApiBluetooth()` (lines 2900-2919) with a parsed request
body: stores the enabled flag, then either arms a pending connection
(never connecting synchronously) or tears the link down. -/
def handleApiBluetooth (enabled : Bool) (st : PeriState) : PeriState :=
  let st1 : PeriState := { st with bluetoothEnabled := enabled }
  if st1.bluetoothEnabled && !st1.bmsConnected && !st1.bmsConnectPending then
    { st1 with bmsConnectPending := true }
  else if !st1.bluetoothEnabled && st1.bmsConnected then
    { st1 with bmsConnected := false, bmsConnectPending := false }
  else st1

/-- The BLE-connect servicing block of `loop()` (lines 3521-3536):
performs the armed attempt when the configured identity has the
well-formed length 17, discards a pending request armed with a
malformed identity. Returns the new state and the number of
`bmsClient.connect()` calls performed; `connectResult` is the oracle
outcome of such a call. -/
def loopBleTick (bmsMac : String) (connectResult : Bool) (st : PeriState) : PeriState × ℕ :=
  if st.bluetoothEnabled && st.bmsConnectPending && !st.bmsConnected &&
      decide (bmsMac.length = 17) then
    ({ st with bmsConnected := connectResult, bmsConnectPending := false }, 1)
  else if st.bmsConnectPending && !(decide (bmsMac.length = 17)) then
    ({ st with bmsConnectPending := false }, 0)
  else (st, 0)

/-- The BLE reconnect-backoff block of `loop()` (lines 3551-3554):
arms a new pending request after the 30 s backoff. -/
def loopBleReconnectTick (currentMillis lastBmsUpdate : ℕ) (st : PeriState) : PeriState :=
  if st.bluetoothEnabled && !st.bmsConnected && !st.bmsConnectPending &&
      decide (30000 ≤ currentMillis - lastBmsUpdate) then
    { st with bmsConnectPending := true }
  else st

/-- C4: the connect request (the Bluetooth-enable handler arming
`bmsConnectPending`) is idempotent. When already Connected or already
ConnectPending it leaves the machine unchanged (apart from storing the
enabled flag); requesting twice while ConnectPending leaves a single
pending request, and the next loop tick performs exactly one
connection attempt, after which no further attempt is pending. -/
theorem requestConnect_idempotent :
    (∀ st : PeriState, st.bmsConnected = true ∨ st.bmsConnectPending = true →
        handleApiBluetooth true st = { st with bluetoothEnabled := true }) ∧
    (∀ st : PeriState,
        handleApiBluetooth true (handleApiBluetooth true st) = handleApiBluetooth true st) ∧
    (∀ (st : PeriState) (mac : String) (cr : Bool),
        st.bmsConnectPending = true → st.bmsConnected = false → mac.length = 17 →
        (loopBleTick mac cr (handleApiBluetooth true (handleApiBluetooth true st))).2 = 1 ∧
        ∀ cr2, (loopBleTick mac cr2
            (loopBleTick mac cr (handleApiBluetooth true (handleApiBluetooth true st))).1).2 = 0) := by
  refine ⟨?_, ?_, ?_⟩
  · rintro ⟨be, bc, bp⟩ h
    rcases h with h | h <;> simp_all [handleApiBluetooth]
  · rintro ⟨be, bc, bp⟩
    cases bc <;> cases bp <;> simp [handleApiBluetooth]
  · rintro ⟨be, bc, bp⟩ mac cr hp hc hm
    subst hp
    subst hc
    constructor
    · simp [handleApiBluetooth, loopBleTick, hm]
    · intro cr2
      cases cr <;> simp [handleApiBluetooth, loopBleTick, hm]

/-- Witness for C4 at a concrete input: a ConnectPending state, a
well-formed 17-character identity, a successful attempt. -/
theorem requestConnect_idempotent_witness :
    (⟨false, false, true⟩ : PeriState).bmsConnectPending = true ∧
    (⟨false, false, true⟩ : PeriState).bmsConnected = false ∧
    ("C8:47:80:3F:67:7C" : String).length = 17 ∧
    ((loopBleTick "C8:47:80:3F:67:7C" true
        (handleApiBluetooth true (handleApiBluetooth true ⟨false, false, true⟩))).2 = 1 ∧
      ∀ cr2, (loopBleTick "C8:47:80:3F:67:7C" cr2
          (loopBleTick "C8:47:80:3F:67:7C" true
            (handleApiBluetooth true (handleApiBluetooth true ⟨false, false, true⟩))).1).2 = 0) :=
  ⟨rfl, rfl, rfl,
   requestConnect_idempotent.2.2 ⟨false, false, true⟩ "C8:47:80:3F:67:7C" true rfl rfl rfl⟩

/-- C8 counterexample: the Bluetooth-enable handler arms a pending
connect request without consulting the configured identity at all — in
a state whose stored identity is the empty string (length 0, not 17)
the request is still armed. -/
theorem requestConnect_arms_without_identity_validation :
    (handleApiBluetooth true ⟨true, false, false⟩).bmsConnectPending = true ∧
    ("" : String).length ≠ 17 :=
  ⟨rfl, by decide⟩

/-- C8 (amended): per loop tick at most one connection attempt is
performed, an attempt is performed only when the identity has the
well-formed length 17, and with a malformed identity no attempt
happens and any pending request is discarded. -/
theorem loopBleTick_single_validated_attempt :
    ∀ (mac : String) (cr : Bool) (st : PeriState),
      (loopBleTick mac cr st).2 ≤ 1 ∧
      ((loopBleTick mac cr st).2 = 1 → mac.length = 17) ∧
      (mac.length ≠ 17 →
        (loopBleTick mac cr st).2 = 0 ∧ (loopBleTick mac cr st).1.bmsConnectPending = false) := by
  intro mac cr st
  by_cases hm : mac.length = 17
  · unfold loopBleTick
    rcases st with ⟨be, bc, bp⟩
    cases be <;> cases bc <;> cases bp <;> simp [hm]
  · unfold loopBleTick
    rcases st with ⟨be, bc, bp⟩
    cases be <;> cases bc <;> cases bp <;> simp [hm]

/-- Witness for the amended C8 theorem at a concrete input: a pending
request with the malformed empty identity is discarded without an
attempt. -/
theorem loopBleTick_single_validated_attempt_witness :
    ("" : String).length ≠ 17 ∧
    ((loopBleTick "" true ⟨true, false, true⟩).2 = 0 ∧
     (loopBleTick "" true ⟨true, false, true⟩).1.bmsConnectPending = false) :=
  ⟨by decide, (loopBleTick_single_validated_attempt "" true ⟨true, false, true⟩).2.2 (by decide)⟩

/-- `WIFI_TIMEOUT_MS` (line 1478). -/
def WIFI_TIMEOUT_MS : ℕ := 30000

/-- The network mode after startup: `apMode = true` is the fallback
access point, otherwise the device is a connected station. -/
inductive NetworkState where
  | ApMode
  | StaConnected
deriving Repr, DecidableEq

/-- Startup environment: the persisted credentials in the `wifi` NVS
namespace and the radio's link status as a function of elapsed
milliseconds (the oracle for `WiFi.status() == WL_CONNECTED`). -/
structure WifiEnv where
  savedSsid : String
  savedPassword : String
  statusAt : ℕ → Bool

/-- The polling wait of `connectToSavedWiFi()` (lines 3247-3259):
starting from elapsed time `t`, re-checks the link every 500 ms until
it is up or `WIFI_TIMEOUT_MS` has elapsed; returns the elapsed time at
loop exit. -/
def wifiWaitElapsed (statusAt : ℕ → Bool) (t : ℕ) : ℕ :=
  if statusAt t then t
  else if WIFI_TIMEOUT_MS ≤ t then t
  else wifiWaitElapsed statusAt (t + 500)
termination_by WIFI_TIMEOUT_MS - t
decreasing_by
  simp only [WIFI_TIMEOUT_MS] at *
  omega

/-- `connectToSavedWiFi()` (lines 3221-3284): with no stored SSID it
returns false without touching the radio; otherwise it issues one
`WiFi.begin` attempt, polls within the 30 s timeout, and reports
whether the link came up. Returns (connected, number of connection
attempts issued). -/
def connectToSavedWiFi (env : WifiEnv) : Bool × ℕ :=
  if env.savedSsid.length = 0 then (false, 0)
  else
    let tEnd := wifiWaitElapsed env.statusAt 0
    (env.statusAt tEnd, 1)

/-- The startup decision in `setup()` (lines 3397-3405): fall back to
the access point when `connectToSavedWiFi()` fails, otherwise remain a
connected station. Returns the resulting network mode and the number
of connection attempts issued. -/
def bootstrap (env : WifiEnv) : NetworkState × ℕ :=
  let r := connectToSavedWiFi env
  (if r.1 then .StaConnected else .ApMode, r.2)

/-- Helper: the polling loop exits after at most `WIFI_TIMEOUT_MS`
elapsed milliseconds when started on the 500 ms grid. -/
theorem wifiWaitElapsed_le (statusAt : ℕ → Bool) :
    ∀ (n t : ℕ), WIFI_TIMEOUT_MS ≤ t + n → t % 500 = 0 → t ≤ WIFI_TIMEOUT_MS →
      wifiWaitElapsed statusAt t ≤ WIFI_TIMEOUT_MS := by
  intro n
  induction n with
  | zero =>
    intro t hn hmod ht
    rw [wifiWaitElapsed]
    have hte : WIFI_TIMEOUT_MS ≤ t := by omega
    by_cases hs : statusAt t <;> simp [hs, hte, ht]
  | succ m ih =>
    intro t hn hmod ht
    rw [wifiWaitElapsed]
    by_cases hs : statusAt t
    · simp [hs, ht]
    · by_cases hte : WIFI_TIMEOUT_MS ≤ t
      · simp [hs, hte, ht]
      · simp only [hs, hte, if_false]
        apply ih
        · omega
        · omega
        · simp only [WIFI_TIMEOUT_MS] at *
          omega

/-- C5: with no persisted credentials, bootstrap ends in ApMode with
zero connection attempts; with persisted credentials it issues exactly
one attempt whose polling wait is bounded by the 30 s timeout, ending
StaConnected exactly when the link came up within the wait and ApMode
otherwise. -/
theorem bootstrap_spec (env : WifiEnv) :
    (env.savedSsid.length = 0 → bootstrap env = (.ApMode, 0)) ∧
    (env.savedSsid.length ≠ 0 →
      (bootstrap env).2 = 1 ∧
      wifiWaitElapsed env.statusAt 0 ≤ WIFI_TIMEOUT_MS ∧
      ((bootstrap env).1 = .StaConnected ↔
        env.statusAt (wifiWaitElapsed env.statusAt 0) = true)) := by
  constructor
  · intro h
    simp [bootstrap, connectToSavedWiFi, h]
  · intro h
    refine ⟨?_, ?_, ?_⟩
    · simp [bootstrap, connectToSavedWiFi, h]
    · exact wifiWaitElapsed_le env.statusAt WIFI_TIMEOUT_MS 0 (by omega) (by omega) (by omega)
    · simp only [bootstrap, connectToSavedWiFi, h, if_neg h]
      by_cases hs : env.statusAt (wifiWaitElapsed env.statusAt 0) <;> simp [hs]

/-- Witness for C5: no saved credentials on the one hand, saved
credentials with a radio that never comes up on the other. -/
theorem bootstrap_spec_witness :
    (("" : String).length = 0 ∧
      bootstrap ⟨"", "", fun _ => false⟩ = (.ApMode, 0)) ∧
    (("home" : String).length ≠ 0 ∧
      (bootstrap ⟨"home", "pw", fun _ => false⟩).2 = 1 ∧
      wifiWaitElapsed (fun _ => false) 0 ≤ WIFI_TIMEOUT_MS ∧
      ((bootstrap ⟨"home", "pw", fun _ => false⟩).1 = .StaConnected ↔
        (fun _ : ℕ => false) (wifiWaitElapsed (fun _ => false) 0) = true)) :=
  ⟨⟨rfl, (bootstrap_spec ⟨"", "", fun _ => false⟩).1 rfl⟩,
   ⟨by decide, (bootstrap_spec ⟨"home", "pw", fun _ => false⟩).2 (by decide)⟩⟩

/-- The persisted user configuration (the globals written by
`saveSettings()` and read by `loadSettings()`). -/
structure Config where
  timezone : String
  bmsInterval : ℕ
  bluetoothEnabled : Bool
  bmsMac : String
  haWebhookUrl : String
  haInterval : ℕ
  haEnabled : Bool
  serialOutputEnabled : Bool
deriving Repr, DecidableEq

/-- Parsed body of a POST to `/api/ha-settings`. -/
structure HaSettingsBody where
  enabled : Bool
  url : String
  interval : ℕ
deriving Repr, DecidableEq

/-- Parsed body of a POST to `/api/bms-settings`. -/
structure BmsSettingsBody where
  mac : String
  interval : ℕ
deriving Repr, DecidableEq

/-- `handleApiHaSettings()` (lines 2996-3011): stores the delivery
settings with the interval clamped to [10, 3600] seconds. -/
def handleApiHaSettings (body : HaSettingsBody) (cfg : Config) : Config :=
  let i1 := body.interval
  let i2 := if i1 < 10 then 10 else i1
  let i3 := if i2 > 3600 then 3600 else i2
  { cfg with haEnabled := body.enabled, haWebhookUrl := body.url, haInterval := i3 }

/-- `handleApiBmsSettings()` (lines 2943-2973): stores the polling
interval clamped to [5, 300] seconds, and adopts the new identity only
when it changed and has the well-formed length 17 (the returned flag
records whether a restart is triggered). -/
def handleApiBmsSettings (body : BmsSettingsBody) (cfg : Config) : Config × Bool :=
  let i1 := body.interval
  let i2 := if i1 < 5 then 5 else i1
  let i3 := if i2 > 300 then 300 else i2
  let macChanged := decide (body.mac ≠ cfg.bmsMac) && decide (body.mac.length = 17)
  ({ cfg with bmsInterval := i3,
              bmsMac := if macChanged then body.mac else cfg.bmsMac },
   macChanged)

/-- C6: a delivery-configuration request stores the requested interval
clamped to [10, 3600] s (5 becomes 10, 10000 becomes 3600), and a
peripheral-settings request stores the polling interval clamped to
[5, 300] s. -/
theorem settings_interval_clamping :
    (∀ (body : HaSettingsBody) (cfg : Config),
        (handleApiHaSettings body cfg).haInterval = max 10 (min 3600 body.interval)) ∧
    (∀ (body : BmsSettingsBody) (cfg : Config),
        (handleApiBmsSettings body cfg).1.bmsInterval = max 5 (min 300 body.interval)) ∧
    (∀ (body : HaSettingsBody) (cfg : Config),
        (handleApiHaSettings { body with interval := 5 } cfg).haInterval = 10 ∧
        (handleApiHaSettings { body with interval := 10000 } cfg).haInterval = 3600) := by
  refine ⟨?_, ?_, ?_⟩
  · intro body cfg
    simp only [handleApiHaSettings]
    split <;> split <;> omega
  · intro body cfg
    simp only [handleApiBmsSettings]
    split <;> split <;> omega
  · intro body cfg
    exact ⟨rfl, rfl⟩

/-- NVS values: the Preferences store holds strings, unsigned longs
and booleans. -/
inductive PrefVal where
  | s (v : String)
  | u (v : ℕ)
  | b (v : Bool)
deriving Repr, DecidableEq

/-- The `settings` NVS namespace, modelled as an association list
where a put prepends (lookups take the most recent binding, matching
overwrite-on-put semantics). -/
abbrev PrefStore := List (String × PrefVal)

/-- `preferences.putXxx(key, v)`. -/
def prefPut (store : PrefStore) (key : String) (v : PrefVal) : PrefStore :=
  (key, v) :: store

/-- Lookup of the current binding of a key. -/
def prefFind (store : PrefStore) (key : String) : Option PrefVal :=
  (store.find? (fun kv => kv.1 == key)).map Prod.snd

/-- `preferences.getString(key, dflt)`. -/
def prefGetString (store : PrefStore) (key dflt : String) : String :=
  match prefFind store key with
  | some (.s v) => v
  | _ => dflt

/-- `preferences.getULong(key, dflt)`. -/
def prefGetULong (store : PrefStore) (key : String) (dflt : ℕ) : ℕ :=
  match prefFind store key with
  | some (.u v) => v
  | _ => dflt

/-- `preferences.getBool(key, dflt)`. -/
def prefGetBool (store : PrefStore) (key : String) (dflt : Bool) : Bool :=
  match prefFind store key with
  | some (.b v) => v
  | _ => dflt

/-- `saveSettings()` (lines 1642-1658): writes every configuration
field under its NVS key. -/
def saveSettings (cfg : Config) (store : PrefStore) : PrefStore :=
  let s1 := prefPut store "timezone" (.s cfg.timezone)
  let s2 := prefPut s1 "bmsInterval" (.u cfg.bmsInterval)
  let s3 := prefPut s2 "btEnabled" (.b cfg.bluetoothEnabled)
  let s4 := prefPut s3 "bmsMac" (.s cfg.bmsMac)
  let s5 := prefPut s4 "haWebhook" (.s cfg.haWebhookUrl)
  let s6 := prefPut s5 "haInterval" (.u cfg.haInterval)
  let s7 := prefPut s6 "haEnabled" (.b cfg.haEnabled)
  prefPut s7 "serialOut" (.b cfg.serialOutputEnabled)

/-- `loadSettings()` (lines 1666-1681): reads every configuration
field, falling back to the documented defaults. -/
def loadSettings (store : PrefStore) : Config :=
  { timezone := prefGetString store "timezone" "CET-1CEST,M3.5.0,M10.5.0/3"
    bmsInterval := prefGetULong store "bmsInterval" 20
    bluetoothEnabled := prefGetBool store "btEnabled" true
    bmsMac := prefGetString store "bmsMac" ""
    haWebhookUrl := prefGetString store "haWebhook" ""
    haInterval := prefGetULong store "haInterval" 60
    haEnabled := prefGetBool store "haEnabled" false
    serialOutputEnabled := prefGetBool store "serialOut" true }

/-- C9: writing the configuration and reloading it (simulating a
restart) restores every field exactly, whatever the store held
before. -/
theorem load_after_save_roundtrip (cfg : Config) (store : PrefStore) :
    loadSettings (saveSettings cfg store) = cfg := by
  rfl

end BMS2Cloud
